import Mathlib

/-!
Verification development for the plotters rendering backend of cargo-criterion
(src/plot/plotters_backend/mod.rs). The chart-drawing code is embedded as pure
functions from the curve/geometry inputs to an abstract description of the
produced chart: the axis ranges passed to the chart builder, the caption, the
series drawn (with their geometry, order and legend labels) and whether the
legend block was drawn. Machine floats are modelled as rationals: every
operation the code performs on them (min, max, comparison, multiplication by
a constant) is exact. Fallible operations (slice indexing, range fitting on an
empty sequence, a missing comparison value) are modelled with Option and
Except; a `none` or `Except.error` result stands for the panic in the Rust
code.
-/

/-- Pixel size in width times height; source: `struct Size` with the
process-wide default `SIZE = Size(960, 540)`. -/
structure Size where
  width : Nat
  height : Nat
deriving DecidableEq

/-- Source: `static SIZE: Size = Size(960, 540)`. -/
def SIZE : Size := ⟨960, 540⟩

/-- Source: `static POINT_SIZE: u32 = 3`. -/
def POINT_SIZE : Nat := 3

/-- A point in chart coordinates. -/
structure Point where
  x : ℚ
  y : ℚ
deriving DecidableEq

/-- Source: `Line`, a straight segment with a start and an end point.
The field for the end point is named end_ because end is a Lean keyword. -/
structure Line where
  start : Point
  end_ : Point
deriving DecidableEq

/-- Source: `LineCurve`, paired x/y sequences of a continuous curve. -/
structure LineCurve where
  xs : List ℚ
  ys : List ℚ
deriving DecidableEq

/-- Source: `FilledCurve`, xs plus two parallel y-sequences bounding a band. -/
structure FilledCurve where
  xs : List ℚ
  ys_1 : List ℚ
  ys_2 : List ℚ
deriving DecidableEq

/-- Source: `Points`, paired xs/ys sequences of discrete samples. -/
structure Points where
  xs : List ℚ
  ys : List ℚ
deriving DecidableEq

/-- Source: `Rectangle` (imported as `RectangleArea`), left/right bounds of a
horizontal band spanning the full vertical range of the chart. -/
structure RectangleArea where
  left : ℚ
  right : ℚ
deriving DecidableEq

/-- Source: `BenchmarkId` (crate::report); only its display title is consumed
here, via `as_title`. -/
structure BenchmarkId where
  title : String
deriving DecidableEq

/-- Source: `BenchmarkId::as_title`. -/
def BenchmarkId.as_title (id : BenchmarkId) : String := id.title

/-- Modelled from the spec: the Axis Range Fitter (the code calls
`plotters::data::fitting_range`, whose body is outside this repository).
Spec section 4.1: given one or more numeric samples it returns a closed
interval containing min and max, padded by a small margin so no data point
touches the border; a zero-variance sequence still yields a non-degenerate
interval; an empty sequence is rejected with a precondition error (here:
`none`). The margin is one tenth of the span, or 1 when the span is zero. -/
def fitting_range (vs : List ℚ) : Option (ℚ × ℚ) :=
  match vs with
  | [] => none
  | v :: rest =>
    let lo := rest.foldl min v
    let hi := rest.foldl max v
    let margin := if hi = lo then 1 else (hi - lo) / 10
    some (lo - margin, hi + margin)

/-- Modelled from the spec: `Sample::new(xs).max()` (crate::stats::univariate,
outside this repository) — the maximum of a non-empty sample; constructing a
`Sample` from an empty slice is a precondition error (here: `none`). -/
def sampleMax (vs : List ℚ) : Option ℚ :=
  match vs with
  | [] => none
  | v :: rest => some (rest.foldl max v)

/-- Modelled from the spec: `Sample::new(xs).min()`, the minimum of a
non-empty sample (see `sampleMax`). -/
def sampleMin (vs : List ℚ) : Option ℚ :=
  match vs with
  | [] => none
  | v :: rest => some (rest.foldl min v)

/-- Modelled from the spec: the report-path-resolution layer
(`ctx.context.report_path(id, file)`, outside this repository); it derives an
output file location from the benchmark identifier and a file name. -/
def report_path (id : BenchmarkId) (file : String) : String :=
  id.title ++ "/" ++ file

/-- One drawable element handed to `draw_series`; the constructors mirror the
plotters element types used by the source. -/
inductive Element where
  | lineElem : List (ℚ × ℚ) → Element
  | areaElem : List (ℚ × ℚ) → ℚ → Element
  | pathElem : List (ℚ × ℚ) → Element
  | circleElem : (ℚ × ℚ) → Nat → Element
  | polyElem : List (ℚ × ℚ) → Element
  | rectElem : (ℚ × ℚ) → (ℚ × ℚ) → Element
deriving DecidableEq

/-- One `draw_series` call: the elements drawn together and the legend label
attached to the call with `.label(...)`, if any. -/
structure Series where
  elements : List Element
  label : Option String
deriving DecidableEq

/-- The abstract output of one chart render: what the code hands to the
plotters chart API. `series` is in draw order; `legendDrawn` records whether
`configure_series_labels().draw()` ran; `caption` is the title the chart was
built with. -/
structure Chart where
  canvas : Size
  caption : Option String
  xRange : ℚ × ℚ
  yRange : ℚ × ℚ
  series : List Series
  legendDrawn : Bool
deriving DecidableEq

/-- The mutable configuration state of a plotters `ChartBuilder` that this
code touches: the caption. -/
structure ChartBuilder where
  caption : Option String
deriving DecidableEq

/-- Model of `ChartBuilder::build_ranged`: plotters consumes the builder
configuration at build time (the caption, in particular, is taken out of the
builder and drawn while the chart areas are laid out), so the built chart
snapshots the caption the builder holds at this moment; mutating the builder
afterwards does not reach the chart. -/
def build_ranged (cb : ChartBuilder) (canvas : Size) (xr yr : ℚ × ℚ) : Chart :=
  { canvas := canvas, caption := cb.caption, xRange := xr, yRange := yr,
    series := [], legendDrawn := false }

/-- The circle markers drawn for a point set: source pattern
`xs.iter().zip(ys.iter()).map(Circle::new(.., POINT_SIZE, ..))`. -/
def circleElems (p : Points) : List Element :=
  (p.xs.zip p.ys).map (fun q => Element.circleElem q POINT_SIZE)

/-- Index of the first series of a chart carrying the given legend label. -/
def seriesIdx (c : Chart) (lab : String) : Option Nat :=
  c.series.findIdx? (fun s => s.label == some lab)

/-- Whether the series labelled `a` is drawn before (hence beneath) the
series labelled `b`: both must be present and `a` come strictly earlier. -/
def drawnBefore (c : Chart) (a b : String) : Bool :=
  match seriesIdx c a, seriesIdx c b with
  | some i, some j => i < j
  | _, _ => false

/-- Whether the noise-threshold series is drawn before every other series of
a relative-distribution chart, as a decidable check on one chart value. -/
def noiseBeforeAll (c : Chart) : Bool :=
  drawnBefore c "Noise threshold" "Bootstrap distribution" &&
  drawnBefore c "Noise threshold" "Confidence interval" &&
  drawnBefore c "Noise threshold" "Point estimate"

/-- Whether the distribution curve is drawn before the noise-threshold band. -/
def curveBeforeNoise (c : Chart) : Bool :=
  drawnBefore c "Bootstrap distribution" "Noise threshold"

namespace PlottingBackend

/-- Source: `PlottingBackend::abs_distribution` for `PlottersBackend`.
x-range fits the distribution-curve xs; y-range fits its ys with the upper
end multiplied by 1.1; caption is always `title:statistic`; draws the density
line, the confidence-interval area down to baseline 0, and the point-estimate
path, each with its legend label; the legend block is always drawn. -/
def abs_distribution (id : BenchmarkId) (statistic : String)
    (size : Option Size) (x_unit : String)
    (distribution_curve : LineCurve) (bootstrap_area : FilledCurve)
    (point_estimate : Line) : Option Chart := do
  let _ := x_unit
  let x_range ← fitting_range distribution_curve.xs
  let y_range0 ← fitting_range distribution_curve.ys
  let y_range := (y_range0.1, y_range0.2 * (11 / 10))
  let cb : ChartBuilder := { caption := some (id.as_title ++ ":" ++ statistic) }
  let chart := build_ranged cb (size.getD SIZE) x_range y_range
  let curveSeries : Series :=
    ⟨[Element.lineElem (distribution_curve.xs.zip distribution_curve.ys)],
     some "Bootstrap distribution"⟩
  let areaSeries : Series :=
    ⟨[Element.areaElem (bootstrap_area.xs.zip bootstrap_area.ys_1) 0],
     some "Confidence interval"⟩
  let pointSeries : Series :=
    ⟨[Element.pathElem
        [(point_estimate.start.x, point_estimate.start.y),
         (point_estimate.end_.x, point_estimate.end_.y)]],
     some "Point estimate"⟩
  pure { chart with
          series := [curveSeries, areaSeries, pointSeries],
          legendDrawn := true }

/-- Source: `PlottingBackend::rel_distribution` for `PlottersBackend`.
x-range is the plain min..max of the curve xs (via `Sample`); y-range fits
the curve ys; draws, in this order: density line, confidence-interval area,
point-estimate path, and LAST the noise-threshold rectangle spanning the full
y-range between the given left/right bounds; the legend block is always
drawn. -/
def rel_distribution (id : BenchmarkId) (statistic : String)
    (size : Option Size)
    (distribution_curve : LineCurve) (confidence_interval : FilledCurve)
    (point_estimate : Line) (noise_threshold : RectangleArea) :
    Option Chart := do
  let x_min ← sampleMin distribution_curve.xs
  let x_max ← sampleMax distribution_curve.xs
  let y_range ← fitting_range distribution_curve.ys
  let cb : ChartBuilder := { caption := some (id.as_title ++ ":" ++ statistic) }
  let chart := build_ranged cb (size.getD SIZE) (x_min, x_max) y_range
  let curveSeries : Series :=
    ⟨[Element.lineElem (distribution_curve.xs.zip distribution_curve.ys)],
     some "Bootstrap distribution"⟩
  let areaSeries : Series :=
    ⟨[Element.areaElem (confidence_interval.xs.zip confidence_interval.ys_1) 0],
     some "Confidence interval"⟩
  let pointSeries : Series :=
    ⟨[Element.pathElem
        [(point_estimate.start.x, point_estimate.start.y),
         (point_estimate.end_.x, point_estimate.end_.y)]],
     some "Point estimate"⟩
  let noiseSeries : Series :=
    ⟨[Element.rectElem (noise_threshold.left, y_range.1)
        (noise_threshold.right, y_range.2)],
     some "Noise threshold"⟩
  pure { chart with
          series := [curveSeries, areaSeries, pointSeries, noiseSeries],
          legendDrawn := true }

/-- Source: `PlottingBackend::iteration_times` for `PlottersBackend`.
With a base point set, the x-range is 1 to the larger of the two maxima of
the xs and the y-range fits both ys sequences jointly; without one, both come
from the current series alone. Draws the current circles (label Current) and,
only when a base set is present, the base circles (label Base). The source
sets the caption on the chart builder only inside the final
`if !is_thumbnail` block, AFTER `build_ranged` has already consumed the
builder configuration, so the built chart never carries a caption; the dead
builder mutation is kept below as `_cb`. The legend block is drawn only when
`is_thumbnail` is false. -/
def iteration_times (id : BenchmarkId) (size : Option Size) (unit : String)
    (is_thumbnail : Bool) (current_times : Points)
    (base_times : Option Points) : Option Chart := do
  let _ := unit
  let cb : ChartBuilder := { caption := none }
  let ranges ← match base_times with
    | some base => do
        let maxCur ← sampleMax current_times.xs
        let maxBase ← sampleMax base.xs
        let y_range ← fitting_range (current_times.ys ++ base.ys)
        pure (((1 : ℚ), max maxCur maxBase), y_range)
    | none => do
        let max_x ← sampleMax current_times.xs
        let y_range ← fitting_range current_times.ys
        pure (((1 : ℚ), max_x), y_range)
  let chart := build_ranged cb (size.getD SIZE) ranges.1 ranges.2
  let currentSeries : Series := ⟨circleElems current_times, some "Current"⟩
  let baseSeries : List Series :=
    match base_times with
    | some base => [⟨circleElems base, some "Base"⟩]
    | none => []
  if is_thumbnail then
    pure { chart with series := currentSeries :: baseSeries }
  else
    let _cb : ChartBuilder := { cb with caption := some id.as_title }
    pure { chart with series := currentSeries :: baseSeries,
                      legendDrawn := true }

/-- Source: `PlottingBackend::regression` for `PlottersBackend`.
Caption is set on the builder before building, only when `is_thumbnail` is
false; x/y ranges fit the raw sample points; draws the sample circles, the
regression path, and the confidence band as one polygon through three of the
four band corners, indexing positions 0 and 1 of the band sequences (a Rust
index panic is a `none` here); the legend block is drawn only when
`is_thumbnail` is false. -/
def regression (id : BenchmarkId) (size : Option Size)
    (is_thumbnail : Bool) (x_label : String) (x_scale : ℚ) (unit : String)
    (sample : Points) (regressionLine : Line)
    (confidence_interval : FilledCurve) : Option Chart := do
  let _ := x_label
  let _ := x_scale
  let _ := unit
  let cb : ChartBuilder :=
    if !is_thumbnail then { caption := some id.as_title } else { caption := none }
  let x_range ← fitting_range sample.xs
  let y_range ← fitting_range sample.ys
  let chart := build_ranged cb (size.getD SIZE) x_range y_range
  let sampleSeries : Series := ⟨circleElems sample, some "Sample"⟩
  let lineSeries : Series :=
    ⟨[Element.pathElem
        [(regressionLine.start.x, regressionLine.start.y),
         (regressionLine.end_.x, regressionLine.end_.y)]],
     some "Linear regression"⟩
  let x0 ← confidence_interval.xs[0]?
  let y20 ← confidence_interval.ys_2[0]?
  let x1 ← confidence_interval.xs[1]?
  let y11 ← confidence_interval.ys_1[1]?
  let y21 ← confidence_interval.ys_2[1]?
  let bandSeries : Series :=
    ⟨[Element.polyElem [(x0, y20), (x1, y11), (x1, y21)]],
     some "Confidence interval"⟩
  pure { chart with
          series := [sampleSeries, lineSeries, bandSeries],
          legendDrawn := !is_thumbnail }

/-- Source: `PlottingBackend::regression_comparison` for `PlottersBackend`.
Caption is set before building, only when `is_thumbnail` is false; the chart
is built over 0..current end x and 0..max of the two end ys; draws two
composite series (regression path plus three-corner band polygon), base first
with label Base Sample, then current with label New Sample; the band polygons
index positions 0 and 1 of the band sequences; the legend block is drawn only
when `is_thumbnail` is false. -/
def regression_comparison (id : BenchmarkId) (size : Option Size)
    (is_thumbnail : Bool) (x_label : String) (x_scale : ℚ) (unit : String)
    (current_regression : Line) (current_confidence_interval : FilledCurve)
    (base_regression : Line) (base_confidence_interval : FilledCurve) :
    Option Chart := do
  let _ := x_label
  let _ := x_scale
  let _ := unit
  let y_max := max current_regression.end_.y base_regression.end_.y
  let cb : ChartBuilder :=
    if !is_thumbnail then { caption := some id.as_title } else { caption := none }
  let chart := build_ranged cb (size.getD SIZE)
    ((0 : ℚ), current_regression.end_.x) ((0 : ℚ), y_max)
  let bx0 ← base_confidence_interval.xs[0]?
  let by20 ← base_confidence_interval.ys_2[0]?
  let bx1 ← base_confidence_interval.xs[1]?
  let by11 ← base_confidence_interval.ys_1[1]?
  let by21 ← base_confidence_interval.ys_2[1]?
  let baseSeries : Series :=
    ⟨[Element.pathElem
        [(base_regression.start.x, base_regression.start.y),
         (base_regression.end_.x, base_regression.end_.y)],
      Element.polyElem [(bx0, by20), (bx1, by11), (bx1, by21)]],
     some "Base Sample"⟩
  let cx0 ← current_confidence_interval.xs[0]?
  let cy20 ← current_confidence_interval.ys_2[0]?
  let cx1 ← current_confidence_interval.xs[1]?
  let cy11 ← current_confidence_interval.ys_1[1]?
  let cy21 ← current_confidence_interval.ys_2[1]?
  let currentSeries : Series :=
    ⟨[Element.pathElem
        [(current_regression.start.x, current_regression.start.y),
         (current_regression.end_.x, current_regression.end_.y)],
      Element.polyElem [(cx0, cy20), (cx1, cy11), (cx1, cy21)]],
     some "New Sample"⟩
  pure { chart with
          series := [baseSeries, currentSeries],
          legendDrawn := !is_thumbnail }

end PlottingBackend

/-- Source: `PlotContext`, which benchmark is rendered, the target size, and
the report-path resolution (the latter modelled by `report_path`). -/
structure PlotContext where
  id : BenchmarkId
  size : Option Size
deriving DecidableEq

/-- Source: `PlotData` — the statistical inputs of one dispatcher call; the
measurement set and the optional comparison data are opaque to this layer and
modelled as handles. -/
structure PlotData where
  measurements : String
  comparison : Option String
deriving DecidableEq

/-- How a dispatcher call fails: `unsupported` models the distinct
`unimplemented!()` panic of a stubbed operation (message: not implemented);
`precondition` models an `expect`/`unwrap` panic on bad input data, carrying
the panic message. -/
inductive PlotError where
  | unsupported : PlotError
  | precondition : String → PlotError
deriving DecidableEq

/-- One rendered figure artifact: where it was written, the title it carries,
and the data it was rendered from. -/
structure FigureOutput where
  path : String
  title : Option String
  measurements : String
  comparisonData : Option String
  canvas : Option Size
deriving DecidableEq

/-- Modelled from the spec: `pdf::pdf_comparison_figure`
(src/plot/plotters_backend/pdf.rs is not in the sources) — renders one
before/after PDF comparison image at the given path with the given optional
title. -/
def pdf_comparison_figure (path : String) (title : Option String)
    (measurements : String) (comparison : String) (size : Option Size) :
    FigureOutput :=
  ⟨path, title, measurements, some comparison, size⟩

/-- Modelled from the spec: `t_test::t_test`
(src/plot/plotters_backend/t_test.rs is not in the sources) — renders the
paired hypothesis-test figure at the given path with the given title. -/
def t_test_figure (path : String) (title : String) (comparison : String)
    (size : Option Size) : FigureOutput :=
  ⟨path, some title, "", some comparison, size⟩

namespace Plotter

/-- Source: `Plotter::pdf_comparison` for `PlottersBackend`: renders the
comparison figure at `both/pdf.svg` with the benchmark title; a missing
comparison value is the `expect` panic (message: Should not call comparison
method without comparison data), so no image is produced. -/
def pdf_comparison (ctx : PlotContext) (data : PlotData) :
    Except PlotError FigureOutput :=
  match data.comparison with
  | some comparison =>
      .ok (pdf_comparison_figure (report_path ctx.id "both/pdf.svg")
        (some ctx.id.as_title) data.measurements comparison ctx.size)
  | none =>
      .error (.precondition
        "Should not call comparison method without comparison data.")

/-- Source: `Plotter::pdf_comparison_thumbnail` for `PlottersBackend`: as
`pdf_comparison` but at `relative_pdf_small.svg` and with no title; the same
`expect` panic when the comparison value is missing. -/
def pdf_comparison_thumbnail (ctx : PlotContext) (data : PlotData) :
    Except PlotError FigureOutput :=
  match data.comparison with
  | some comparison =>
      .ok (pdf_comparison_figure (report_path ctx.id "relative_pdf_small.svg")
        none data.measurements comparison ctx.size)
  | none =>
      .error (.precondition
        "Should not call comparison method without comparison data.")

/-- Source: `Plotter::t_test` for `PlottersBackend`: renders the t-test
figure at `change/t-test.svg` with the benchmark title; a missing comparison
value is the `unwrap` panic, so no image is produced. -/
def t_test (ctx : PlotContext) (data : PlotData) :
    Except PlotError FigureOutput :=
  match data.comparison with
  | some comparison =>
      .ok (t_test_figure (report_path ctx.id "change/t-test.svg")
        ctx.id.as_title comparison ctx.size)
  | none =>
      .error (.precondition "called Option unwrap on a None value")

/-- Source: `Plotter::regression` for `PlottersBackend`: `unimplemented!()`. -/
def regression (ctx : PlotContext) (data : PlotData) :
    Except PlotError FigureOutput :=
  let _ := ctx
  let _ := data
  .error .unsupported

/-- Source: `Plotter::regression_thumbnail`: `unimplemented!()`. -/
def regression_thumbnail (ctx : PlotContext) (data : PlotData) :
    Except PlotError FigureOutput :=
  let _ := ctx
  let _ := data
  .error .unsupported

/-- Source: `Plotter::regression_comparison`: `unimplemented!()`. -/
def regression_comparison (ctx : PlotContext) (data : PlotData) :
    Except PlotError FigureOutput :=
  let _ := ctx
  let _ := data
  .error .unsupported

/-- Source: `Plotter::regression_comparison_thumbnail`: `unimplemented!()`. -/
def regression_comparison_thumbnail (ctx : PlotContext) (data : PlotData) :
    Except PlotError FigureOutput :=
  let _ := ctx
  let _ := data
  .error .unsupported

/-- Source: `Plotter::iteration_times`: `unimplemented!()`. -/
def iteration_times (ctx : PlotContext) (data : PlotData) :
    Except PlotError FigureOutput :=
  let _ := ctx
  let _ := data
  .error .unsupported

/-- Source: `Plotter::iteration_times_thumbnail`: `unimplemented!()`. -/
def iteration_times_thumbnail (ctx : PlotContext) (data : PlotData) :
    Except PlotError FigureOutput :=
  let _ := ctx
  let _ := data
  .error .unsupported

/-- Source: `Plotter::iteration_times_comparison`: `unimplemented!()`. -/
def iteration_times_comparison (ctx : PlotContext) (data : PlotData) :
    Except PlotError FigureOutput :=
  let _ := ctx
  let _ := data
  .error .unsupported

/-- Source: `Plotter::iteration_times_comparison_thumbnail`:
`unimplemented!()`. -/
def iteration_times_comparison_thumbnail (ctx : PlotContext)
    (data : PlotData) : Except PlotError FigureOutput :=
  let _ := ctx
  let _ := data
  .error .unsupported

/-- Source: `Plotter::abs_distributions`: `unimplemented!()`. -/
def abs_distributions (ctx : PlotContext) (data : PlotData) :
    Except PlotError FigureOutput :=
  let _ := ctx
  let _ := data
  .error .unsupported

/-- Source: `Plotter::rel_distributions`: `unimplemented!()`. -/
def rel_distributions (ctx : PlotContext) (data : PlotData) :
    Except PlotError FigureOutput :=
  let _ := ctx
  let _ := data
  .error .unsupported

end Plotter

/-! Helper lemmas about the folded minimum and maximum and about
`fitting_range`, shared by several claim proofs. -/

lemma foldl_min_le_init (l : List ℚ) (v : ℚ) : l.foldl min v ≤ v := by
  induction l generalizing v with
  | nil => exact le_refl v
  | cons a l ih =>
      calc (a :: l).foldl min v = l.foldl min (min v a) := rfl
        _ ≤ min v a := ih (min v a)
        _ ≤ v := min_le_left v a

lemma foldl_min_le_mem (l : List ℚ) (v x : ℚ) (hx : x ∈ l) :
    l.foldl min v ≤ x := by
  induction l generalizing v with
  | nil => cases hx
  | cons a l ih =>
      rcases List.mem_cons.mp hx with h | h
      · subst h
        calc (x :: l).foldl min v = l.foldl min (min v x) := rfl
          _ ≤ min v x := foldl_min_le_init l (min v x)
          _ ≤ x := min_le_right v x
      · exact ih (min v a) h

lemma init_le_foldl_max (l : List ℚ) (v : ℚ) : v ≤ l.foldl max v := by
  induction l generalizing v with
  | nil => exact le_refl v
  | cons a l ih =>
      calc v ≤ max v a := le_max_left v a
        _ ≤ l.foldl max (max v a) := ih (max v a)
        _ = (a :: l).foldl max v := rfl

lemma mem_le_foldl_max (l : List ℚ) (v x : ℚ) (hx : x ∈ l) :
    x ≤ l.foldl max v := by
  induction l generalizing v with
  | nil => cases hx
  | cons a l ih =>
      rcases List.mem_cons.mp hx with h | h
      · subst h
        calc x ≤ max v x := le_max_right v x
          _ ≤ l.foldl max (max v x) := init_le_foldl_max l (max v x)
          _ = (x :: l).foldl max v := rfl
      · exact ih (max v a) h

/-- The bracketing contract of the range fitter: on a non-empty sequence it
returns an interval whose bounds bracket every input value strictly inside a
positive-width interval. -/
lemma fitting_range_spec (vs : List ℚ) (h : vs ≠ []) :
    ∃ lo hi, fitting_range vs = some (lo, hi) ∧
      (∀ x ∈ vs, lo ≤ x ∧ x ≤ hi) ∧ lo < hi := by
  match vs with
  | [] => exact absurd rfl h
  | v :: rest =>
    set lo0 := rest.foldl min v with hlo0
    set hi0 := rest.foldl max v with hhi0
    have hlo0v : lo0 ≤ v := foldl_min_le_init rest v
    have hvhi0 : v ≤ hi0 := init_le_foldl_max rest v
    have hlohi : lo0 ≤ hi0 := le_trans hlo0v hvhi0
    set m := if hi0 = lo0 then (1 : ℚ) else (hi0 - lo0) / 10 with hm
    have hmpos : 0 < m := by
      rw [hm]
      split
      · norm_num
      · have : lo0 < hi0 := lt_of_le_of_ne hlohi (by
          intro he
          exact (by assumption : ¬ hi0 = lo0) he.symm)
        have : 0 < hi0 - lo0 := sub_pos.mpr this
        positivity
    refine ⟨lo0 - m, hi0 + m, ?_, ?_, ?_⟩
    · simp only [fitting_range, hlo0, hhi0, hm]
    · intro x hx
      have hxlo : lo0 ≤ x := by
        rcases List.mem_cons.mp hx with hxv | hxr
        · subst hxv; exact hlo0v
        · exact foldl_min_le_mem rest v x hxr
      have hxhi : x ≤ hi0 := by
        rcases List.mem_cons.mp hx with hxv | hxr
        · subst hxv; exact hvhi0
        · exact mem_le_foldl_max rest v x hxr
      constructor
      · linarith
      · linarith
    · linarith

/-- The range fitter rejects the empty sequence. -/
lemma fitting_range_nil : fitting_range [] = none := rfl

/-- Shape of a successful `fitting_range` result. -/
lemma fitting_range_eq_some (vs : List ℚ) (p : ℚ × ℚ)
    (h : fitting_range vs = some p) : vs ≠ [] := by
  intro hnil
  subst hnil
  simp [fitting_range] at h

/-- A valid index yields `some` of the `getD` value. -/
lemma getElem?_eq_some_getD (l : List ℚ) (i : Nat) (h : i < l.length) :
    l[i]? = some (l.getD i 0) := by
  rw [List.getElem?_eq_getElem h, List.getD_eq_getElem l 0 h]

/-- `sampleMax` bounds every member of the sample from above. -/
lemma sampleMax_spec (vs : List ℚ) (m : ℚ) (h : sampleMax vs = some m) :
    ∀ x ∈ vs, x ≤ m := by
  match vs with
  | [] => simp [sampleMax] at h
  | v :: rest =>
    simp only [sampleMax, Option.some.injEq] at h
    intro x hx
    rcases List.mem_cons.mp hx with hxv | hxr
    · subst hxv; rw [← h]; exact init_le_foldl_max rest x
    · rw [← h]; exact mem_le_foldl_max rest v x hxr

/-- A non-empty sample has a maximum. -/
lemma sampleMax_isSome (vs : List ℚ) (h : vs ≠ []) :
    ∃ m, sampleMax vs = some m := by
  match vs with
  | [] => exact absurd rfl h
  | v :: rest => exact ⟨rest.foldl max v, rfl⟩

/-- A non-empty sample has a minimum. -/
lemma sampleMin_isSome (vs : List ℚ) (h : vs ≠ []) :
    ∃ m, sampleMin vs = some m := by
  match vs with
  | [] => exact absurd rfl h
  | v :: rest => exact ⟨rest.foldl min v, rfl⟩

/-! Claim theorems. -/

/-- Claim C4: for every non-empty numeric sequence the axis range fitter
returns an interval whose lower bound is at most every input value, whose
upper bound is at least every input value, and whose width is strictly
positive even for a constant sequence; on the empty sequence it fails
(returns `none`) instead of returning an interval. -/
theorem C4_fitting_range_contract (vs : List ℚ) (h : vs ≠ []) :
    (∃ lo hi, fitting_range vs = some (lo, hi) ∧
      (∀ x ∈ vs, lo ≤ x ∧ x ≤ hi) ∧ lo < hi) ∧
    fitting_range [] = none :=
  ⟨fitting_range_spec vs h, fitting_range_nil⟩

/-- Witness for C4 at the constant sequence `[3, 3, 3]`. -/
theorem C4_fitting_range_contract_witness :
    ([(3 : ℚ), 3, 3] ≠ []) ∧
    ((∃ lo hi, fitting_range [(3 : ℚ), 3, 3] = some (lo, hi) ∧
        (∀ x ∈ [(3 : ℚ), 3, 3], lo ≤ x ∧ x ≤ hi) ∧ lo < hi) ∧
      fitting_range [] = none) :=
  ⟨by decide, C4_fitting_range_contract [3, 3, 3] (by decide)⟩

/-- Claim C3: each comparison render (pdf_comparison,
pdf_comparison_thumbnail, t_test) invoked with `PlotData` whose comparison
field is absent fails with a precondition error and produces no image. -/
theorem C3_comparison_requires_comparison_data (ctx : PlotContext)
    (data : PlotData) (h : data.comparison = none) :
    (∃ msg, Plotter.pdf_comparison ctx data =
      .error (.precondition msg)) ∧
    (∃ msg, Plotter.pdf_comparison_thumbnail ctx data =
      .error (.precondition msg)) ∧
    (∃ msg, Plotter.t_test ctx data = .error (.precondition msg)) := by
  refine
    ⟨⟨"Should not call comparison method without comparison data.", ?_⟩,
     ⟨"Should not call comparison method without comparison data.", ?_⟩,
     ⟨"called Option unwrap on a None value", ?_⟩⟩ <;>
    simp [Plotter.pdf_comparison, Plotter.pdf_comparison_thumbnail,
      Plotter.t_test, h]

/-- Witness for C3 at a concrete context and comparison-free data. -/
theorem C3_comparison_requires_comparison_data_witness :
    (PlotData.comparison ⟨"m", none⟩ = none) ∧
    ((∃ msg, Plotter.pdf_comparison ⟨⟨"bench"⟩, none⟩ ⟨"m", none⟩ =
        .error (.precondition msg)) ∧
      (∃ msg, Plotter.pdf_comparison_thumbnail ⟨⟨"bench"⟩, none⟩ ⟨"m", none⟩ =
        .error (.precondition msg)) ∧
      (∃ msg, Plotter.t_test ⟨⟨"bench"⟩, none⟩ ⟨"m", none⟩ =
        .error (.precondition msg))) :=
  ⟨rfl, C3_comparison_requires_comparison_data ⟨⟨"bench"⟩, none⟩ ⟨"m", none⟩ rfl⟩

/-- Claim C8: every plot-kind operation the backend does not implement
returns the distinct `unsupported` failure: it never succeeds, and the
`unsupported` failure differs from every precondition failure. -/
theorem C8_unsupported_operations (ctx : PlotContext) (data : PlotData) :
    Plotter.regression ctx data = .error .unsupported ∧
    Plotter.regression_thumbnail ctx data = .error .unsupported ∧
    Plotter.regression_comparison ctx data = .error .unsupported ∧
    Plotter.regression_comparison_thumbnail ctx data = .error .unsupported ∧
    Plotter.iteration_times ctx data = .error .unsupported ∧
    Plotter.iteration_times_thumbnail ctx data = .error .unsupported ∧
    Plotter.iteration_times_comparison ctx data = .error .unsupported ∧
    Plotter.iteration_times_comparison_thumbnail ctx data =
      .error .unsupported ∧
    Plotter.abs_distributions ctx data = .error .unsupported ∧
    Plotter.rel_distributions ctx data = .error .unsupported ∧
    (∀ msg, PlotError.unsupported ≠ PlotError.precondition msg) ∧
    (∀ out : FigureOutput,
      (Except.error PlotError.unsupported : Except PlotError FigureOutput) ≠
        Except.ok out) := by
  refine ⟨rfl, rfl, rfl, rfl, rfl, rfl, rfl, rfl, rfl, rfl, ?_, ?_⟩
  · intro msg hmsg
    cases hmsg
  · intro out hout
    cases hout

/-- Witness for C8 at a concrete context and data bundle. -/
theorem C8_unsupported_operations_witness :
    Plotter.regression ⟨⟨"bench"⟩, none⟩ ⟨"m", none⟩ = .error .unsupported ∧
    Plotter.regression_thumbnail ⟨⟨"bench"⟩, none⟩ ⟨"m", none⟩ =
      .error .unsupported ∧
    Plotter.regression_comparison ⟨⟨"bench"⟩, none⟩ ⟨"m", none⟩ =
      .error .unsupported ∧
    Plotter.regression_comparison_thumbnail ⟨⟨"bench"⟩, none⟩ ⟨"m", none⟩ =
      .error .unsupported ∧
    Plotter.iteration_times ⟨⟨"bench"⟩, none⟩ ⟨"m", none⟩ =
      .error .unsupported ∧
    Plotter.iteration_times_thumbnail ⟨⟨"bench"⟩, none⟩ ⟨"m", none⟩ =
      .error .unsupported ∧
    Plotter.iteration_times_comparison ⟨⟨"bench"⟩, none⟩ ⟨"m", none⟩ =
      .error .unsupported ∧
    Plotter.iteration_times_comparison_thumbnail ⟨⟨"bench"⟩, none⟩
      ⟨"m", none⟩ = .error .unsupported ∧
    Plotter.abs_distributions ⟨⟨"bench"⟩, none⟩ ⟨"m", none⟩ =
      .error .unsupported ∧
    Plotter.rel_distributions ⟨⟨"bench"⟩, none⟩ ⟨"m", none⟩ =
      .error .unsupported ∧
    (∀ msg, PlotError.unsupported ≠ PlotError.precondition msg) ∧
    (∀ out : FigureOutput,
      (Except.error PlotError.unsupported : Except PlotError FigureOutput) ≠
        Except.ok out) :=
  C8_unsupported_operations ⟨⟨"bench"⟩, none⟩ ⟨"m", none⟩

/-- Claim C5: the absolute-distribution render fits the x-axis range from the
distribution-curve x-values and sets the y-axis upper bound to the fitted
upper bound of the y-values times 1.1; hence with 9/10 among the y-values the
y-axis upper bound exceeds 9/10, and with 0 and 4 among the x-values the
x-axis spans at least [0, 4]. -/
theorem C5_abs_distribution_ranges (id : BenchmarkId) (statistic : String)
    (size : Option Size) (x_unit : String) (curve : LineCurve)
    (area : FilledCurve) (pe : Line)
    (hx : curve.xs ≠ []) (hy : curve.ys ≠ []) :
    ∃ c, PlottingBackend.abs_distribution id statistic size x_unit curve
        area pe = some c ∧
      (∃ lo hi, fitting_range curve.xs = some (lo, hi) ∧
        c.xRange = (lo, hi)) ∧
      (∃ lo hi, fitting_range curve.ys = some (lo, hi) ∧
        c.yRange = (lo, hi * (11 / 10))) ∧
      ((9 / 10 : ℚ) ∈ curve.ys → (9 / 10 : ℚ) < c.yRange.2) ∧
      ((0 : ℚ) ∈ curve.xs → (4 : ℚ) ∈ curve.xs →
        c.xRange.1 ≤ 0 ∧ 4 ≤ c.xRange.2) := by
  obtain ⟨xlo, xhi, hfx, hbx, hwx⟩ := fitting_range_spec curve.xs hx
  obtain ⟨ylo, yhi, hfy, hby, hwy⟩ := fitting_range_spec curve.ys hy
  refine ⟨{ canvas := size.getD SIZE,
            caption := some (id.as_title ++ ":" ++ statistic),
            xRange := (xlo, xhi),
            yRange := (ylo, yhi * (11 / 10)),
            series :=
              [⟨[Element.lineElem (curve.xs.zip curve.ys)],
                some "Bootstrap distribution"⟩,
               ⟨[Element.areaElem (area.xs.zip area.ys_1) 0],
                some "Confidence interval"⟩,
               ⟨[Element.pathElem
                   [(pe.start.x, pe.start.y), (pe.end_.x, pe.end_.y)]],
                some "Point estimate"⟩],
            legendDrawn := true }, ?_, ⟨xlo, xhi, hfx, rfl⟩,
    ⟨ylo, yhi, hfy, rfl⟩, ?_, ?_⟩
  · simp [PlottingBackend.abs_distribution, hfx, hfy, build_ranged]
  · intro hmem
    have h9 : (9 / 10 : ℚ) ≤ yhi := (hby _ hmem).2
    show (9 / 10 : ℚ) < yhi * (11 / 10)
    linarith
  · intro h0 h4
    exact ⟨(hbx 0 h0).1, (hbx 4 h4).2⟩

/-- Witness for C5 at the end-to-end scenario of the spec: curve
xs = [0, 1, 2, 3, 4], ys = [1/10, 4/10, 9/10, 4/10, 1/10], a confidence band
over x in [1, 3] and a point estimate at x = 2. -/
theorem C5_abs_distribution_ranges_witness :
    (LineCurve.xs ⟨[0, 1, 2, 3, 4], [1/10, 4/10, 9/10, 4/10, 1/10]⟩ ≠ []) ∧
    (LineCurve.ys ⟨[0, 1, 2, 3, 4], [1/10, 4/10, 9/10, 4/10, 1/10]⟩ ≠ []) ∧
    (∃ c, PlottingBackend.abs_distribution ⟨"fib"⟩ "mean" none "us"
        ⟨[0, 1, 2, 3, 4], [1/10, 4/10, 9/10, 4/10, 1/10]⟩
        ⟨[1, 2, 3], [4/10, 9/10, 4/10], [0, 0, 0]⟩
        ⟨⟨2, 0⟩, ⟨2, 9/10⟩⟩ = some c ∧
      (∃ lo hi, fitting_range
          (LineCurve.xs ⟨[0, 1, 2, 3, 4], [1/10, 4/10, 9/10, 4/10, 1/10]⟩) =
          some (lo, hi) ∧ c.xRange = (lo, hi)) ∧
      (∃ lo hi, fitting_range
          (LineCurve.ys ⟨[0, 1, 2, 3, 4], [1/10, 4/10, 9/10, 4/10, 1/10]⟩) =
          some (lo, hi) ∧ c.yRange = (lo, hi * (11 / 10))) ∧
      ((9 / 10 : ℚ) ∈
          LineCurve.ys ⟨[0, 1, 2, 3, 4], [1/10, 4/10, 9/10, 4/10, 1/10]⟩ →
        (9 / 10 : ℚ) < c.yRange.2) ∧
      ((0 : ℚ) ∈
          LineCurve.xs ⟨[0, 1, 2, 3, 4], [1/10, 4/10, 9/10, 4/10, 1/10]⟩ →
        (4 : ℚ) ∈
          LineCurve.xs ⟨[0, 1, 2, 3, 4], [1/10, 4/10, 9/10, 4/10, 1/10]⟩ →
        c.xRange.1 ≤ 0 ∧ 4 ≤ c.xRange.2)) :=
  ⟨by decide, by decide,
   C5_abs_distribution_ranges ⟨"fib"⟩ "mean" none "us"
     ⟨[0, 1, 2, 3, 4], [1/10, 4/10, 9/10, 4/10, 1/10]⟩
     ⟨[1, 2, 3], [4/10, 9/10, 4/10], [0, 0, 0]⟩
     ⟨⟨2, 0⟩, ⟨2, 9/10⟩⟩ (by decide) (by decide)⟩

/-- Claim C6: the regression-comparison render builds the chart over the
x-range 0 to the current-regression endpoint x and the y-range 0 to the
maximum of the base and current regression endpoint ys, which bounds both
endpoint ys from below. -/
theorem C6_regression_comparison_ranges (id : BenchmarkId)
    (size : Option Size) (is_thumbnail : Bool) (x_label : String)
    (x_scale : ℚ) (unit : String) (curReg : Line) (curCi : FilledCurve)
    (baseReg : Line) (baseCi : FilledCurve)
    (hb1 : 2 ≤ baseCi.xs.length) (hb2 : 2 ≤ baseCi.ys_1.length)
    (hb3 : 2 ≤ baseCi.ys_2.length)
    (hc1 : 2 ≤ curCi.xs.length) (hc2 : 2 ≤ curCi.ys_1.length)
    (hc3 : 2 ≤ curCi.ys_2.length) :
    ∃ c, PlottingBackend.regression_comparison id size is_thumbnail x_label
        x_scale unit curReg curCi baseReg baseCi = some c ∧
      c.xRange = (0, curReg.end_.x) ∧
      c.yRange = (0, max baseReg.end_.y curReg.end_.y) ∧
      baseReg.end_.y ≤ c.yRange.2 ∧ curReg.end_.y ≤ c.yRange.2 := by
  have hbx0 := getElem?_eq_some_getD baseCi.xs 0 (by omega)
  have hbx1 := getElem?_eq_some_getD baseCi.xs 1 (by omega)
  have hb11 := getElem?_eq_some_getD baseCi.ys_1 1 (by omega)
  have hb20 := getElem?_eq_some_getD baseCi.ys_2 0 (by omega)
  have hb21 := getElem?_eq_some_getD baseCi.ys_2 1 (by omega)
  have hcx0 := getElem?_eq_some_getD curCi.xs 0 (by omega)
  have hcx1 := getElem?_eq_some_getD curCi.xs 1 (by omega)
  have hc11 := getElem?_eq_some_getD curCi.ys_1 1 (by omega)
  have hc20 := getElem?_eq_some_getD curCi.ys_2 0 (by omega)
  have hc21 := getElem?_eq_some_getD curCi.ys_2 1 (by omega)
  refine ⟨{ canvas := size.getD SIZE,
            caption := if is_thumbnail then none else some id.as_title,
            xRange := (0, curReg.end_.x),
            yRange := (0, max curReg.end_.y baseReg.end_.y),
            series :=
              [⟨[Element.pathElem
                   [(baseReg.start.x, baseReg.start.y),
                    (baseReg.end_.x, baseReg.end_.y)],
                 Element.polyElem
                   [(baseCi.xs.getD 0 0, baseCi.ys_2.getD 0 0),
                    (baseCi.xs.getD 1 0, baseCi.ys_1.getD 1 0),
                    (baseCi.xs.getD 1 0, baseCi.ys_2.getD 1 0)]],
                some "Base Sample"⟩,
               ⟨[Element.pathElem
                   [(curReg.start.x, curReg.start.y),
                    (curReg.end_.x, curReg.end_.y)],
                 Element.polyElem
                   [(curCi.xs.getD 0 0, curCi.ys_2.getD 0 0),
                    (curCi.xs.getD 1 0, curCi.ys_1.getD 1 0),
                    (curCi.xs.getD 1 0, curCi.ys_2.getD 1 0)]],
                some "New Sample"⟩],
            legendDrawn := !is_thumbnail }, ?_, rfl, ?_, ?_, ?_⟩
  · cases is_thumbnail <;>
      (simp only [PlottingBackend.regression_comparison, hbx0, hbx1, hb11,
        hb20, hb21, hcx0, hcx1, hc11, hc20, hc21, Option.some_bind]; rfl)
  · show ((0 : ℚ), max curReg.end_.y baseReg.end_.y) =
      (0, max baseReg.end_.y curReg.end_.y)
    rw [max_comm]
  · exact le_max_right _ _
  · exact le_max_left _ _

/-- Witness for C6 at the end-to-end scenario of the spec: base endpoint
y = 10, current endpoint y = 15. -/
theorem C6_regression_comparison_ranges_witness :
    (2 ≤ (FilledCurve.xs ⟨[0, 8], [9, 12], [7, 8]⟩).length) ∧
    (∃ c, PlottingBackend.regression_comparison ⟨"fib"⟩ none false "Iterations"
        1 "s" ⟨⟨0, 0⟩, ⟨10, 15⟩⟩ ⟨[0, 10], [14, 16], [13, 14]⟩
        ⟨⟨0, 0⟩, ⟨8, 10⟩⟩ ⟨[0, 8], [9, 12], [7, 8]⟩ = some c ∧
      c.xRange = (0, Line.end_ ⟨⟨0, 0⟩, ⟨10, 15⟩⟩ |>.x) ∧
      c.yRange = (0, max (Line.end_ ⟨⟨0, 0⟩, ⟨8, 10⟩⟩ |>.y)
        (Line.end_ ⟨⟨0, 0⟩, ⟨10, 15⟩⟩ |>.y)) ∧
      (Line.end_ ⟨⟨0, 0⟩, ⟨8, 10⟩⟩ |>.y) ≤ c.yRange.2 ∧
      (Line.end_ ⟨⟨0, 0⟩, ⟨10, 15⟩⟩ |>.y) ≤ c.yRange.2) :=
  ⟨by decide,
   C6_regression_comparison_ranges ⟨"fib"⟩ none false "Iterations" 1 "s"
     ⟨⟨0, 0⟩, ⟨10, 15⟩⟩ ⟨[0, 10], [14, 16], [13, 14]⟩
     ⟨⟨0, 0⟩, ⟨8, 10⟩⟩ ⟨[0, 8], [9, 12], [7, 8]⟩
     (by decide) (by decide) (by decide) (by decide) (by decide) (by decide)⟩

/-- Claim C7: an iteration-times render without a baseline point set draws
only the current series (so no series carries the Base legend label), with
the x-range 1 to the maximum current x and the y-range fitted from the
current y-values alone. -/
theorem C7_iteration_times_no_base (id : BenchmarkId) (size : Option Size)
    (unit : String) (is_thumbnail : Bool) (cur : Points)
    (hx : cur.xs ≠ []) (hy : cur.ys ≠ []) :
    ∃ c, PlottingBackend.iteration_times id size unit is_thumbnail cur
        none = some c ∧
      c.series = [⟨circleElems cur, some "Current"⟩] ∧
      (∀ s ∈ c.series, s.label ≠ some "Base") ∧
      (∃ mx, sampleMax cur.xs = some mx ∧ (∀ x ∈ cur.xs, x ≤ mx) ∧
        c.xRange = (1, mx)) ∧
      (∃ lo hi, fitting_range cur.ys = some (lo, hi) ∧
        c.yRange = (lo, hi)) := by
  obtain ⟨mx, hmx⟩ := sampleMax_isSome cur.xs hx
  obtain ⟨ylo, yhi, hfy, hby, hwy⟩ := fitting_range_spec cur.ys hy
  refine ⟨{ canvas := size.getD SIZE,
            caption := none,
            xRange := (1, mx),
            yRange := (ylo, yhi),
            series := [⟨circleElems cur, some "Current"⟩],
            legendDrawn := !is_thumbnail }, ?_, rfl, ?_, ?_, ?_⟩
  · cases is_thumbnail <;>
      simp [PlottingBackend.iteration_times, hmx, hfy, build_ranged]
  · intro s hs
    rw [List.mem_singleton] at hs
    subst hs
    show (some "Current" : Option String) ≠ some "Base"
    decide
  · exact ⟨mx, hmx, sampleMax_spec cur.xs mx hmx, rfl⟩
  · exact ⟨ylo, yhi, hfy, rfl⟩

/-- Witness for C7 at a concrete current point set and no baseline. -/
theorem C7_iteration_times_no_base_witness :
    (Points.xs ⟨[1, 2, 3], [5, 6, 4]⟩ ≠ []) ∧
    (Points.ys ⟨[1, 2, 3], [5, 6, 4]⟩ ≠ []) ∧
    (∃ c, PlottingBackend.iteration_times ⟨"fib"⟩ none "us" false
        ⟨[1, 2, 3], [5, 6, 4]⟩ none = some c ∧
      c.series = [⟨circleElems ⟨[1, 2, 3], [5, 6, 4]⟩, some "Current"⟩] ∧
      (∀ s ∈ c.series, s.label ≠ some "Base") ∧
      (∃ mx, sampleMax (Points.xs ⟨[1, 2, 3], [5, 6, 4]⟩) = some mx ∧
        (∀ x ∈ Points.xs ⟨[1, 2, 3], [5, 6, 4]⟩, x ≤ mx) ∧
        c.xRange = (1, mx)) ∧
      (∃ lo hi, fitting_range (Points.ys ⟨[1, 2, 3], [5, 6, 4]⟩) =
        some (lo, hi) ∧ c.yRange = (lo, hi))) :=
  ⟨by decide, by decide,
   C7_iteration_times_no_base ⟨"fib"⟩ none "us" false ⟨[1, 2, 3], [5, 6, 4]⟩
     (by decide) (by decide)⟩

/-- Claim C2 counterexample: at a concrete relative-distribution input the
noise-threshold band is NOT drawn before the distribution curve, the
confidence band, or the point-estimate marker; the curve is drawn before the
band, which comes last. -/
theorem C2_noise_band_not_drawn_beneath_counterexample :
    (PlottingBackend.rel_distribution ⟨"fib"⟩ "mean" none
        ⟨[0, 1, 2], [1, 2, 1]⟩ ⟨[0, 1], [1, 1], [0, 0]⟩
        ⟨⟨1, 0⟩, ⟨1, 2⟩⟩ ⟨-1/2, 1/2⟩).map noiseBeforeAll = some false ∧
    (PlottingBackend.rel_distribution ⟨"fib"⟩ "mean" none
        ⟨[0, 1, 2], [1, 2, 1]⟩ ⟨[0, 1], [1, 1], [0, 0]⟩
        ⟨⟨1, 0⟩, ⟨1, 2⟩⟩ ⟨-1/2, 1/2⟩).map curveBeforeNoise = some true := by
  constructor <;> rfl

/-- Claim C2 as amended: the translucent noise-threshold band, spanning the
full y-range between the given left and right bounds, is drawn as the
fourth and last series of the relative-distribution render — after (on top
of) the distribution curve, the confidence band and the point-estimate
marker. -/
theorem C2_noise_band_drawn_last (id : BenchmarkId) (statistic : String)
    (size : Option Size) (curve : LineCurve) (ci : FilledCurve) (pe : Line)
    (nt : RectangleArea) (hx : curve.xs ≠ []) (hy : curve.ys ≠ []) :
    ∃ c, PlottingBackend.rel_distribution id statistic size curve ci pe nt =
        some c ∧
      ∃ lo hi, fitting_range curve.ys = some (lo, hi) ∧
        c.yRange = (lo, hi) ∧
        c.series.map Series.label =
          [some "Bootstrap distribution", some "Confidence interval",
           some "Point estimate", some "Noise threshold"] ∧
        c.series.getLast? =
          some ⟨[Element.rectElem (nt.left, lo) (nt.right, hi)],
                some "Noise threshold"⟩ ∧
        drawnBefore c "Bootstrap distribution" "Noise threshold" = true ∧
        drawnBefore c "Confidence interval" "Noise threshold" = true ∧
        drawnBefore c "Point estimate" "Noise threshold" = true ∧
        noiseBeforeAll c = false := by
  obtain ⟨xmin, hxmin⟩ := sampleMin_isSome curve.xs hx
  obtain ⟨xmax, hxmax⟩ := sampleMax_isSome curve.xs hx
  obtain ⟨ylo, yhi, hfy, hby, hwy⟩ := fitting_range_spec curve.ys hy
  refine ⟨{ canvas := size.getD SIZE,
            caption := some (id.as_title ++ ":" ++ statistic),
            xRange := (xmin, xmax),
            yRange := (ylo, yhi),
            series :=
              [⟨[Element.lineElem (curve.xs.zip curve.ys)],
                some "Bootstrap distribution"⟩,
               ⟨[Element.areaElem (ci.xs.zip ci.ys_1) 0],
                some "Confidence interval"⟩,
               ⟨[Element.pathElem
                   [(pe.start.x, pe.start.y), (pe.end_.x, pe.end_.y)]],
                some "Point estimate"⟩,
               ⟨[Element.rectElem (nt.left, ylo) (nt.right, yhi)],
                some "Noise threshold"⟩],
            legendDrawn := true }, ?_,
    ylo, yhi, hfy, rfl, rfl, rfl, rfl, rfl, rfl, rfl⟩
  simp [PlottingBackend.rel_distribution, hxmin, hxmax, hfy, build_ranged]

/-- Witness for the amended C2 at a concrete input. -/
theorem C2_noise_band_drawn_last_witness :
    (LineCurve.xs ⟨[0, 1, 2], [1, 2, 1]⟩ ≠ []) ∧
    (LineCurve.ys ⟨[0, 1, 2], [1, 2, 1]⟩ ≠ []) ∧
    (∃ c, PlottingBackend.rel_distribution ⟨"fib"⟩ "mean" none
        ⟨[0, 1, 2], [1, 2, 1]⟩ ⟨[0, 1], [1, 1], [0, 0]⟩
        ⟨⟨1, 0⟩, ⟨1, 2⟩⟩ ⟨-1/2, 1/2⟩ = some c ∧
      ∃ lo hi, fitting_range (LineCurve.ys ⟨[0, 1, 2], [1, 2, 1]⟩) =
          some (lo, hi) ∧
        c.yRange = (lo, hi) ∧
        c.series.map Series.label =
          [some "Bootstrap distribution", some "Confidence interval",
           some "Point estimate", some "Noise threshold"] ∧
        c.series.getLast? =
          some ⟨[Element.rectElem (RectangleArea.left ⟨-1/2, 1/2⟩, lo)
                   (RectangleArea.right ⟨-1/2, 1/2⟩, hi)],
                some "Noise threshold"⟩ ∧
        drawnBefore c "Bootstrap distribution" "Noise threshold" = true ∧
        drawnBefore c "Confidence interval" "Noise threshold" = true ∧
        drawnBefore c "Point estimate" "Noise threshold" = true ∧
        noiseBeforeAll c = false) :=
  ⟨by decide, by decide,
   C2_noise_band_drawn_last ⟨"fib"⟩ "mean" none ⟨[0, 1, 2], [1, 2, 1]⟩
     ⟨[0, 1], [1, 1], [0, 0]⟩ ⟨⟨1, 0⟩, ⟨1, 2⟩⟩ ⟨-1/2, 1/2⟩
     (by decide) (by decide)⟩

/-- Claim C9: in the regression render the confidence band is one polygon
whose vertices are exactly the three corners (xs[0], ys_2[0]),
(xs[1], ys_1[1]), (xs[1], ys_2[1]) of the band; the regression-comparison
render uses the same three-corner polygon for both its bands. -/
theorem C9_three_corner_band_polygon (id : BenchmarkId) (size : Option Size)
    (is_thumbnail : Bool) (x_label : String) (x_scale : ℚ) (unit : String)
    (sample : Points) (regLine : Line) (ci : FilledCurve)
    (id2 : BenchmarkId) (size2 : Option Size) (is_thumbnail2 : Bool)
    (x_label2 : String) (x_scale2 : ℚ) (unit2 : String)
    (curReg : Line) (curCi : FilledCurve) (baseReg : Line)
    (baseCi : FilledCurve)
    (hsx : sample.xs ≠ []) (hsy : sample.ys ≠ [])
    (h1 : 2 ≤ ci.xs.length) (h2 : 2 ≤ ci.ys_1.length)
    (h3 : 2 ≤ ci.ys_2.length)
    (hb1 : 2 ≤ baseCi.xs.length) (hb2 : 2 ≤ baseCi.ys_1.length)
    (hb3 : 2 ≤ baseCi.ys_2.length)
    (hc1 : 2 ≤ curCi.xs.length) (hc2 : 2 ≤ curCi.ys_1.length)
    (hc3 : 2 ≤ curCi.ys_2.length) :
    (∃ c, PlottingBackend.regression id size is_thumbnail x_label x_scale
        unit sample regLine ci = some c ∧
      c.series.map Series.label =
        [some "Sample", some "Linear regression",
         some "Confidence interval"] ∧
      c.series.getLast? =
        some ⟨[Element.polyElem
                 [(ci.xs.getD 0 0, ci.ys_2.getD 0 0),
                  (ci.xs.getD 1 0, ci.ys_1.getD 1 0),
                  (ci.xs.getD 1 0, ci.ys_2.getD 1 0)]],
              some "Confidence interval"⟩) ∧
    (∃ c, PlottingBackend.regression_comparison id2 size2 is_thumbnail2
        x_label2 x_scale2 unit2 curReg curCi baseReg baseCi = some c ∧
      c.series.map Series.label = [some "Base Sample", some "New Sample"] ∧
      c.series.map Series.elements =
        [[Element.pathElem
            [(baseReg.start.x, baseReg.start.y),
             (baseReg.end_.x, baseReg.end_.y)],
          Element.polyElem
            [(baseCi.xs.getD 0 0, baseCi.ys_2.getD 0 0),
             (baseCi.xs.getD 1 0, baseCi.ys_1.getD 1 0),
             (baseCi.xs.getD 1 0, baseCi.ys_2.getD 1 0)]],
         [Element.pathElem
            [(curReg.start.x, curReg.start.y),
             (curReg.end_.x, curReg.end_.y)],
          Element.polyElem
            [(curCi.xs.getD 0 0, curCi.ys_2.getD 0 0),
             (curCi.xs.getD 1 0, curCi.ys_1.getD 1 0),
             (curCi.xs.getD 1 0, curCi.ys_2.getD 1 0)]]]) := by
  constructor
  · obtain ⟨xlo, xhi, hfx, hbx, hwx⟩ := fitting_range_spec sample.xs hsx
    obtain ⟨ylo, yhi, hfy, hby, hwy⟩ := fitting_range_spec sample.ys hsy
    have hx0 := getElem?_eq_some_getD ci.xs 0 (by omega)
    have hx1 := getElem?_eq_some_getD ci.xs 1 (by omega)
    have hy11 := getElem?_eq_some_getD ci.ys_1 1 (by omega)
    have hy20 := getElem?_eq_some_getD ci.ys_2 0 (by omega)
    have hy21 := getElem?_eq_some_getD ci.ys_2 1 (by omega)
    refine ⟨{ canvas := size.getD SIZE,
              caption := if is_thumbnail then none else some id.as_title,
              xRange := (xlo, xhi),
              yRange := (ylo, yhi),
              series :=
                [⟨circleElems sample, some "Sample"⟩,
                 ⟨[Element.pathElem
                     [(regLine.start.x, regLine.start.y),
                      (regLine.end_.x, regLine.end_.y)]],
                  some "Linear regression"⟩,
                 ⟨[Element.polyElem
                     [(ci.xs.getD 0 0, ci.ys_2.getD 0 0),
                      (ci.xs.getD 1 0, ci.ys_1.getD 1 0),
                      (ci.xs.getD 1 0, ci.ys_2.getD 1 0)]],
                  some "Confidence interval"⟩],
              legendDrawn := !is_thumbnail }, ?_, rfl, rfl⟩
    cases is_thumbnail <;>
      (simp only [PlottingBackend.regression, hfx, hfy, hx0, hx1, hy11, hy20,
        hy21, Option.some_bind]; rfl)
  · have hbx0 := getElem?_eq_some_getD baseCi.xs 0 (by omega)
    have hbx1 := getElem?_eq_some_getD baseCi.xs 1 (by omega)
    have hb11 := getElem?_eq_some_getD baseCi.ys_1 1 (by omega)
    have hb20 := getElem?_eq_some_getD baseCi.ys_2 0 (by omega)
    have hb21 := getElem?_eq_some_getD baseCi.ys_2 1 (by omega)
    have hcx0 := getElem?_eq_some_getD curCi.xs 0 (by omega)
    have hcx1 := getElem?_eq_some_getD curCi.xs 1 (by omega)
    have hc11 := getElem?_eq_some_getD curCi.ys_1 1 (by omega)
    have hc20 := getElem?_eq_some_getD curCi.ys_2 0 (by omega)
    have hc21 := getElem?_eq_some_getD curCi.ys_2 1 (by omega)
    refine ⟨{ canvas := size2.getD SIZE,
              caption := if is_thumbnail2 then none else some id2.as_title,
              xRange := (0, curReg.end_.x),
              yRange := (0, max curReg.end_.y baseReg.end_.y),
              series :=
                [⟨[Element.pathElem
                     [(baseReg.start.x, baseReg.start.y),
                      (baseReg.end_.x, baseReg.end_.y)],
                   Element.polyElem
                     [(baseCi.xs.getD 0 0, baseCi.ys_2.getD 0 0),
                      (baseCi.xs.getD 1 0, baseCi.ys_1.getD 1 0),
                      (baseCi.xs.getD 1 0, baseCi.ys_2.getD 1 0)]],
                  some "Base Sample"⟩,
                 ⟨[Element.pathElem
                     [(curReg.start.x, curReg.start.y),
                      (curReg.end_.x, curReg.end_.y)],
                   Element.polyElem
                     [(curCi.xs.getD 0 0, curCi.ys_2.getD 0 0),
                      (curCi.xs.getD 1 0, curCi.ys_1.getD 1 0),
                      (curCi.xs.getD 1 0, curCi.ys_2.getD 1 0)]],
                  some "New Sample"⟩],
              legendDrawn := !is_thumbnail2 }, ?_, rfl, rfl⟩
    cases is_thumbnail2 <;>
      (simp only [PlottingBackend.regression_comparison, hbx0, hbx1, hb11,
        hb20, hb21, hcx0, hcx1, hc11, hc20, hc21, Option.some_bind]; rfl)

/-- Witness for C9 at concrete regression and regression-comparison inputs. -/
theorem C9_three_corner_band_polygon_witness :
    (Points.xs ⟨[1, 2], [3, 4]⟩ ≠ []) ∧
    (2 ≤ (FilledCurve.xs ⟨[0, 1], [2, 3], [1, 2]⟩).length) ∧
    ((∃ c, PlottingBackend.regression ⟨"fib"⟩ none false "Iterations" 1 "s"
        ⟨[1, 2], [3, 4]⟩ ⟨⟨0, 0⟩, ⟨1, 1⟩⟩ ⟨[0, 1], [2, 3], [1, 2]⟩ = some c ∧
      c.series.map Series.label =
        [some "Sample", some "Linear regression",
         some "Confidence interval"] ∧
      c.series.getLast? =
        some ⟨[Element.polyElem
                 [((FilledCurve.xs ⟨[0, 1], [2, 3], [1, 2]⟩).getD 0 0,
                   (FilledCurve.ys_2 ⟨[0, 1], [2, 3], [1, 2]⟩).getD 0 0),
                  ((FilledCurve.xs ⟨[0, 1], [2, 3], [1, 2]⟩).getD 1 0,
                   (FilledCurve.ys_1 ⟨[0, 1], [2, 3], [1, 2]⟩).getD 1 0),
                  ((FilledCurve.xs ⟨[0, 1], [2, 3], [1, 2]⟩).getD 1 0,
                   (FilledCurve.ys_2 ⟨[0, 1], [2, 3], [1, 2]⟩).getD 1 0)]],
              some "Confidence interval"⟩) ∧
    (∃ c, PlottingBackend.regression_comparison ⟨"fib"⟩ none false
        "Iterations" 1 "s" ⟨⟨0, 0⟩, ⟨10, 15⟩⟩ ⟨[0, 10], [14, 16], [13, 14]⟩
        ⟨⟨0, 0⟩, ⟨8, 10⟩⟩ ⟨[0, 8], [9, 12], [7, 8]⟩ = some c ∧
      c.series.map Series.label = [some "Base Sample", some "New Sample"] ∧
      c.series.map Series.elements =
        [[Element.pathElem
            [(Point.x ⟨0, 0⟩, Point.y ⟨0, 0⟩), (Point.x ⟨8, 10⟩, Point.y ⟨8, 10⟩)],
          Element.polyElem
            [((FilledCurve.xs ⟨[0, 8], [9, 12], [7, 8]⟩).getD 0 0,
              (FilledCurve.ys_2 ⟨[0, 8], [9, 12], [7, 8]⟩).getD 0 0),
             ((FilledCurve.xs ⟨[0, 8], [9, 12], [7, 8]⟩).getD 1 0,
              (FilledCurve.ys_1 ⟨[0, 8], [9, 12], [7, 8]⟩).getD 1 0),
             ((FilledCurve.xs ⟨[0, 8], [9, 12], [7, 8]⟩).getD 1 0,
              (FilledCurve.ys_2 ⟨[0, 8], [9, 12], [7, 8]⟩).getD 1 0)]],
         [Element.pathElem
            [(Point.x ⟨0, 0⟩, Point.y ⟨0, 0⟩),
             (Point.x ⟨10, 15⟩, Point.y ⟨10, 15⟩)],
          Element.polyElem
            [((FilledCurve.xs ⟨[0, 10], [14, 16], [13, 14]⟩).getD 0 0,
              (FilledCurve.ys_2 ⟨[0, 10], [14, 16], [13, 14]⟩).getD 0 0),
             ((FilledCurve.xs ⟨[0, 10], [14, 16], [13, 14]⟩).getD 1 0,
              (FilledCurve.ys_1 ⟨[0, 10], [14, 16], [13, 14]⟩).getD 1 0),
             ((FilledCurve.xs ⟨[0, 10], [14, 16], [13, 14]⟩).getD 1 0,
              (FilledCurve.ys_2 ⟨[0, 10], [14, 16], [13, 14]⟩).getD 1 0)]]])) :=
  ⟨by decide, by decide,
   C9_three_corner_band_polygon ⟨"fib"⟩ none false "Iterations" 1 "s"
     ⟨[1, 2], [3, 4]⟩ ⟨⟨0, 0⟩, ⟨1, 1⟩⟩ ⟨[0, 1], [2, 3], [1, 2]⟩
     ⟨"fib"⟩ none false "Iterations" 1 "s"
     ⟨⟨0, 0⟩, ⟨10, 15⟩⟩ ⟨[0, 10], [14, 16], [13, 14]⟩
     ⟨⟨0, 0⟩, ⟨8, 10⟩⟩ ⟨[0, 8], [9, 12], [7, 8]⟩
     (by decide) (by decide) (by decide) (by decide) (by decide) (by decide)
     (by decide) (by decide) (by decide) (by decide) (by decide)⟩

/-- Claim C10: the regression and regression-comparison renders read
positions 0 and 1 of the confidence-band sequences, so they are total once
all three sequences have length at least 2 (and, for regression, the sample
is non-empty), while a band of length exactly 1 — which satisfies the
documented length-at-least-1 invariant — makes both renders fail with the
out-of-bounds access (modelled as `none`). -/
theorem C10_band_indexing_needs_length_two (id : BenchmarkId)
    (size : Option Size) (is_thumbnail : Bool) (x_label : String)
    (x_scale : ℚ) (unit : String) (sample : Points) (regLine : Line)
    (ci : FilledCurve) (id2 : BenchmarkId) (size2 : Option Size)
    (is_thumbnail2 : Bool) (x_label2 : String) (x_scale2 : ℚ)
    (unit2 : String) (curReg : Line) (curCi : FilledCurve) (baseReg : Line)
    (baseCi : FilledCurve)
    (hsx : sample.xs ≠ []) (hsy : sample.ys ≠ [])
    (h1 : 2 ≤ ci.xs.length) (h2 : 2 ≤ ci.ys_1.length)
    (h3 : 2 ≤ ci.ys_2.length)
    (hb1 : 2 ≤ baseCi.xs.length) (hb2 : 2 ≤ baseCi.ys_1.length)
    (hb3 : 2 ≤ baseCi.ys_2.length)
    (hc1 : 2 ≤ curCi.xs.length) (hc2 : 2 ≤ curCi.ys_1.length)
    (hc3 : 2 ≤ curCi.ys_2.length) :
    (∃ c, PlottingBackend.regression id size is_thumbnail x_label x_scale
      unit sample regLine ci = some c) ∧
    (∃ c, PlottingBackend.regression_comparison id2 size2 is_thumbnail2
      x_label2 x_scale2 unit2 curReg curCi baseReg baseCi = some c) ∧
    (FilledCurve.xs ⟨[5], [6], [4]⟩).length = 1 ∧
    (FilledCurve.ys_1 ⟨[5], [6], [4]⟩).length = 1 ∧
    (FilledCurve.ys_2 ⟨[5], [6], [4]⟩).length = 1 ∧
    PlottingBackend.regression ⟨"b"⟩ none false "x" 1 "u" ⟨[1, 2], [1, 2]⟩
      ⟨⟨0, 0⟩, ⟨1, 1⟩⟩ ⟨[5], [6], [4]⟩ = none ∧
    PlottingBackend.regression_comparison ⟨"b"⟩ none false "x" 1 "u"
      ⟨⟨0, 0⟩, ⟨1, 1⟩⟩ ⟨[5], [6], [4]⟩ ⟨⟨0, 0⟩, ⟨1, 1⟩⟩ ⟨[5], [6], [4]⟩ =
      none := by
  refine ⟨?_, ?_, rfl, rfl, rfl, rfl, rfl⟩
  · obtain ⟨xlo, xhi, hfx, hbx, hwx⟩ := fitting_range_spec sample.xs hsx
    obtain ⟨ylo, yhi, hfy, hby, hwy⟩ := fitting_range_spec sample.ys hsy
    have hx0 := getElem?_eq_some_getD ci.xs 0 (by omega)
    have hx1 := getElem?_eq_some_getD ci.xs 1 (by omega)
    have hy11 := getElem?_eq_some_getD ci.ys_1 1 (by omega)
    have hy20 := getElem?_eq_some_getD ci.ys_2 0 (by omega)
    have hy21 := getElem?_eq_some_getD ci.ys_2 1 (by omega)
    simp only [PlottingBackend.regression, hfx, hfy, hx0, hx1, hy11, hy20,
      hy21, Option.some_bind]
    exact ⟨_, rfl⟩
  · have hbx0 := getElem?_eq_some_getD baseCi.xs 0 (by omega)
    have hbx1 := getElem?_eq_some_getD baseCi.xs 1 (by omega)
    have hb11 := getElem?_eq_some_getD baseCi.ys_1 1 (by omega)
    have hb20 := getElem?_eq_some_getD baseCi.ys_2 0 (by omega)
    have hb21 := getElem?_eq_some_getD baseCi.ys_2 1 (by omega)
    have hcx0 := getElem?_eq_some_getD curCi.xs 0 (by omega)
    have hcx1 := getElem?_eq_some_getD curCi.xs 1 (by omega)
    have hc11 := getElem?_eq_some_getD curCi.ys_1 1 (by omega)
    have hc20 := getElem?_eq_some_getD curCi.ys_2 0 (by omega)
    have hc21 := getElem?_eq_some_getD curCi.ys_2 1 (by omega)
    simp only [PlottingBackend.regression_comparison, hbx0, hbx1, hb11, hb20,
      hb21, hcx0, hcx1, hc11, hc20, hc21, Option.some_bind]
    exact ⟨_, rfl⟩

/-- Witness for C10 at concrete length-two bands and a two-point sample. -/
theorem C10_band_indexing_needs_length_two_witness :
    (Points.xs ⟨[1, 2], [3, 4]⟩ ≠ []) ∧
    (2 ≤ (FilledCurve.xs ⟨[0, 1], [2, 3], [1, 2]⟩).length) ∧
    ((∃ c, PlottingBackend.regression ⟨"fib"⟩ none false "Iterations" 1 "s"
      ⟨[1, 2], [3, 4]⟩ ⟨⟨0, 0⟩, ⟨1, 1⟩⟩ ⟨[0, 1], [2, 3], [1, 2]⟩ = some c) ∧
    (∃ c, PlottingBackend.regression_comparison ⟨"fib"⟩ none false
      "Iterations" 1 "s" ⟨⟨0, 0⟩, ⟨10, 15⟩⟩ ⟨[0, 10], [14, 16], [13, 14]⟩
      ⟨⟨0, 0⟩, ⟨8, 10⟩⟩ ⟨[0, 8], [9, 12], [7, 8]⟩ = some c) ∧
    (FilledCurve.xs ⟨[5], [6], [4]⟩).length = 1 ∧
    (FilledCurve.ys_1 ⟨[5], [6], [4]⟩).length = 1 ∧
    (FilledCurve.ys_2 ⟨[5], [6], [4]⟩).length = 1 ∧
    PlottingBackend.regression ⟨"b"⟩ none false "x" 1 "u" ⟨[1, 2], [1, 2]⟩
      ⟨⟨0, 0⟩, ⟨1, 1⟩⟩ ⟨[5], [6], [4]⟩ = none ∧
    PlottingBackend.regression_comparison ⟨"b"⟩ none false "x" 1 "u"
      ⟨⟨0, 0⟩, ⟨1, 1⟩⟩ ⟨[5], [6], [4]⟩ ⟨⟨0, 0⟩, ⟨1, 1⟩⟩ ⟨[5], [6], [4]⟩ =
      none) :=
  ⟨by decide, by decide,
   C10_band_indexing_needs_length_two ⟨"fib"⟩ none false "Iterations" 1 "s"
     ⟨[1, 2], [3, 4]⟩ ⟨⟨0, 0⟩, ⟨1, 1⟩⟩ ⟨[0, 1], [2, 3], [1, 2]⟩
     ⟨"fib"⟩ none false "Iterations" 1 "s"
     ⟨⟨0, 0⟩, ⟨10, 15⟩⟩ ⟨[0, 10], [14, 16], [13, 14]⟩
     ⟨⟨0, 0⟩, ⟨8, 10⟩⟩ ⟨[0, 8], [9, 12], [7, 8]⟩
     (by decide) (by decide) (by decide) (by decide) (by decide) (by decide)
     (by decide) (by decide) (by decide) (by decide) (by decide)⟩

/-- Claim C1 (evaluation at the failing input): a full-size (non-thumbnail)
iteration-times render carries NO caption, because the source sets the
caption on the chart builder only after the chart has been built, while the
full-size regression and regression-comparison renders — which set the
caption before building — do carry the benchmark title; the legend block is
drawn in all three full-size renders. -/
theorem C1_full_iteration_times_missing_caption :
    (PlottingBackend.iteration_times ⟨"fib"⟩ none "us" false
        ⟨[1, 2], [3, 4]⟩ none).map Chart.caption = some none ∧
    (PlottingBackend.iteration_times ⟨"fib"⟩ none "us" false
        ⟨[1, 2], [3, 4]⟩ none).map Chart.legendDrawn = some true ∧
    (PlottingBackend.iteration_times ⟨"fib"⟩ none "us" true
        ⟨[1, 2], [3, 4]⟩ none).map Chart.caption = some none ∧
    (PlottingBackend.iteration_times ⟨"fib"⟩ none "us" true
        ⟨[1, 2], [3, 4]⟩ none).map Chart.legendDrawn = some false ∧
    (PlottingBackend.regression ⟨"fib"⟩ none false "x" 1 "u"
        ⟨[1, 2], [3, 4]⟩ ⟨⟨0, 0⟩, ⟨1, 1⟩⟩ ⟨[0, 1], [2, 3], [1, 2]⟩).map
      Chart.caption = some (some "fib") ∧
    (PlottingBackend.regression ⟨"fib"⟩ none false "x" 1 "u"
        ⟨[1, 2], [3, 4]⟩ ⟨⟨0, 0⟩, ⟨1, 1⟩⟩ ⟨[0, 1], [2, 3], [1, 2]⟩).map
      Chart.legendDrawn = some true ∧
    (PlottingBackend.regression ⟨"fib"⟩ none true "x" 1 "u"
        ⟨[1, 2], [3, 4]⟩ ⟨⟨0, 0⟩, ⟨1, 1⟩⟩ ⟨[0, 1], [2, 3], [1, 2]⟩).map
      Chart.caption = some none ∧
    (PlottingBackend.regression ⟨"fib"⟩ none true "x" 1 "u"
        ⟨[1, 2], [3, 4]⟩ ⟨⟨0, 0⟩, ⟨1, 1⟩⟩ ⟨[0, 1], [2, 3], [1, 2]⟩).map
      Chart.legendDrawn = some false ∧
    (PlottingBackend.regression_comparison ⟨"fib"⟩ none false "x" 1 "u"
        ⟨⟨0, 0⟩, ⟨1, 1⟩⟩ ⟨[0, 1], [2, 3], [1, 2]⟩ ⟨⟨0, 0⟩, ⟨1, 1⟩⟩
        ⟨[0, 1], [2, 3], [1, 2]⟩).map Chart.caption = some (some "fib") ∧
    (PlottingBackend.regression_comparison ⟨"fib"⟩ none true "x" 1 "u"
        ⟨⟨0, 0⟩, ⟨1, 1⟩⟩ ⟨[0, 1], [2, 3], [1, 2]⟩ ⟨⟨0, 0⟩, ⟨1, 1⟩⟩
        ⟨[0, 1], [2, 3], [1, 2]⟩).map Chart.caption = some none := by
  exact ⟨rfl, rfl, rfl, rfl, rfl, rfl, rfl, rfl, rfl, rfl⟩
